import Mathlib

/-!
Verification development for the SolumaChat desktop shell (`src/index.js`).

We shallowly embed the window-state and positioning coordinator:
the position resolver `getWindowPosition`, the companion-window toggle
state machine (`toggleWindow` / `showWindow`), the tray controller
(`createTray`, `updateSetting`), and the startup / login-submission
orchestration, and prove the spec's claims about them.

Modelling conventions:
 - All pixel quantities in scope (window bounds, work-area sizes) are
   integers, so every arithmetic expression fed to `Math.round` in the
   source is an exact dyadic/decimal rational of the form `a / b` with
   integral `a` and a fixed positive integral `b` (`b = 1`, `2`, or `10`;
   the literal `0.1` is the exact rational `1/10`).  `Math.round (a / b)`
   (round half toward positive infinity) is embedded as `jsRoundDiv a b`,
   whose agreement with the mathematical `⌊a/b + 1/2⌋` is proved in
   `jsRoundDiv_eq_floor`.
 - Nullable JS references are `Option`; a JS `TypeError` thrown by
   dereferencing `null` or a destroyed native object is `Except.error`.
 - The persisted `settings` object is a string-keyed partial map.
-/

namespace SolumaChat

/-- JavaScript `Math.round (a / b)` for an integer numerator `a` and positive
integer denominator `b`, computed exactly with integer floor division:
`round (a/b) = ⌊a/b + 1/2⌋ = ⌊(2a+b)/(2b)⌋`. -/
def jsRoundDiv (a b : ℤ) : ℤ := (2 * a + b) / (2 * b)

/-- `jsRoundDiv` is genuinely "round half up to the nearest integer". -/
theorem jsRoundDiv_eq_floor (a b : ℤ) (hb : 0 < b) :
    jsRoundDiv a b = ⌊(a : ℚ) / b + 1/2⌋ := by
  have hm : (((2 * b).toNat : ℤ)) = 2 * b := Int.toNat_of_nonneg (by omega)
  have hb0 : (b : ℚ) ≠ 0 := by
    exact_mod_cast (by omega : (b : ℤ) ≠ 0)
  have h1 : (a : ℚ) / b + 1/2 = ((2 * a + b : ℤ) : ℚ) / (((2 * b).toNat : ℕ) : ℚ) := by
    have h2 : (((2 * b).toNat : ℕ) : ℚ) = ((2 * b : ℤ) : ℚ) := by
      exact_mod_cast congrArg (fun z : ℤ => (z : ℚ)) hm
    rw [h2]
    push_cast
    field_simp
    ring
  rw [h1, Rat.floor_intCast_div_natCast, hm]
  rfl

/-- Rounding an integer (`b = 1`) is the identity. -/
theorem jsRoundDiv_one (a : ℤ) : jsRoundDiv a 1 = a := by
  unfold jsRoundDiv
  omega

/-- The `switch (position)` body of `getWindowPosition` (src/index.js:407-448),
as a pure function of the position name, the companion window bounds
`(width, height)` and the primary display work area `(width, height)`.
`jsRoundDiv x 2` embeds `Math.round(x / 2)` (the source's
`screenWidth / 2 - windowBounds.width / 2` equals `(screenWidth -
windowBounds.width) / 2` exactly), `jsRoundDiv x 10` embeds
`Math.round(x * 0.1)`, and `jsRoundDiv x 1` embeds `Math.round(x)` on an
integral `x`.  The `top-center` case and the `default` case share one
branch, exactly as the source's fall-through does. -/
def resolvePosition (position : String) (windowBounds workArea : ℤ × ℤ) : ℤ × ℤ :=
  let sw := workArea.1
  let sh := workArea.2
  let ww := windowBounds.1
  let wh := windowBounds.2
  if position = "bottom-center" then
    (jsRoundDiv (sw - ww) 2, jsRoundDiv (sh - wh - 20) 1)
  else if position = "bottom-left" then
    (20, jsRoundDiv (sh - wh - 20) 1)
  else if position = "bottom-right" then
    (jsRoundDiv (sw - ww - 20) 1, jsRoundDiv (sh - wh - 20) 1)
  else if position = "center" then
    (jsRoundDiv (sw - ww) 2, jsRoundDiv (sh - wh) 2)
  else if position = "top-right" then
    (jsRoundDiv (sw - ww - 20) 1, jsRoundDiv sh 10)
  else
    (jsRoundDiv (sw - ww) 2, jsRoundDiv sh 10)

/-- Modelled from the spec (§4.1 Position Resolver): the resolver as the spec
words it — `bottom-center`: x centers, y = screenHeight − windowHeight − 20;
`bottom-left`: x = 20; `bottom-right`: x = screenWidth − windowWidth − 20;
`center`: both centered; `top-right`: y = 10% of screenHeight; `top-center`
is the default and the fallback for unrecognized names; all coordinates
rounded to the nearest integer.  Used only to diff against
`resolvePosition`. -/
def specResolve (position : String) (windowBounds workArea : ℤ × ℤ) : ℤ × ℤ :=
  let sw := workArea.1
  let sh := workArea.2
  let ww := windowBounds.1
  let wh := windowBounds.2
  let centerX := jsRoundDiv (sw - ww) 2
  let bottomY := sh - wh - 20
  let tenthY := jsRoundDiv sh 10
  if position = "bottom-center" then (centerX, bottomY)
  else if position = "bottom-left" then (20, bottomY)
  else if position = "bottom-right" then (sw - ww - 20, bottomY)
  else if position = "center" then (centerX, jsRoundDiv (sh - wh) 2)
  else if position = "top-right" then (sw - ww - 20, tenthY)
  else (centerX, tenthY)

/-- The bounds-safety region claimed by spec §8: the point lies within
`[0, screenWidth - windowWidth] × [0, screenHeight - windowHeight]`. -/
def inRange (p : ℤ × ℤ) (windowBounds workArea : ℤ × ℤ) : Prop :=
  0 ≤ p.1 ∧ p.1 ≤ workArea.1 - windowBounds.1 ∧
  0 ≤ p.2 ∧ p.2 ≤ workArea.2 - windowBounds.2

instance (p wb wa : ℤ × ℤ) : Decidable (inRange p wb wa) := by
  unfold inRange; infer_instance

/-! ## Persisted state -/

/-- The persisted `settings` object: a string-keyed partial map, `none`
meaning the key is absent (JS `undefined`). -/
def SettingsMap := String → Option String

/-- JS property assignment `settings[key] = value`. -/
def setKey (m : SettingsMap) (key value : String) : SettingsMap :=
  fun k => if k = key then some value else m k

/-- The default settings object of `createTray` (src/index.js:275-280). -/
def defaultSettings : SettingsMap := fun k =>
  if k = "position" then some "top-center"
  else if k = "resetTimer" then some "10m"
  else if k = "openNewChats" then some "companion"
  else if k = "trayVisibility" then some "always"
  else none

/-- The default settings object of `getWindowPosition` (src/index.js:413). -/
def posDefaultSettings : SettingsMap := fun k =>
  if k = "position" then some "top-center" else none

/-- The `electron-store` contents used by the coordinator: the persisted
`serverHost`, `computerId` and `settings` keys. -/
structure Store where
  serverHost : Option String
  computerId : Option String
  settings : Option SettingsMap

/-- A store with nothing persisted yet (first launch). -/
def emptyStore : Store := ⟨none, none, none⟩

/-! ## Native window and tray handles -/

/-- A `BrowserWindow` handle as the coordinator observes it: the liveness
flag (`isDestroyed`), visibility, input focus, content bounds
`(width, height)` and screen position `(x, y)`. -/
structure BWin where
  destroyed : Bool
  visible : Bool
  focused : Bool
  bounds : ℤ × ℤ
  position : ℤ × ℤ
deriving DecidableEq

/-- The click actions wired into the tray context menu template
(src/index.js:292-330). -/
inductive TrayAction
  | openMainAction
  | toggleCompanion
  | setPosition (value : String)
  | setTrayVisibility (value : String)
  | quitApp
deriving DecidableEq

/-- One `type: 'radio'` entry of a tray submenu. -/
structure RadioEntry where
  label : String
  checked : Bool
  action : TrayAction
deriving DecidableEq

/-- One item of the tray context menu template. -/
inductive TrayItem
  | action (label : String) (a : TrayAction)
  | sep
  | radioGroup (label : String) (entries : List RadioEntry)
deriving DecidableEq

/-- The `Menu.buildFromTemplate` argument of `createTray`
(src/index.js:292-330), as a function of the freshly read settings. -/
def contextMenuTemplate (settings : SettingsMap) : List TrayItem :=
  [ .action "Open Soluma Chat" .openMainAction,
    .action "Open Companion" .toggleCompanion,
    .sep,
    .radioGroup "Companion Position"
      [ ⟨"Bottom Center", settings "position" == some "bottom-center", .setPosition "bottom-center"⟩,
        ⟨"Bottom Left", settings "position" == some "bottom-left", .setPosition "bottom-left"⟩,
        ⟨"Bottom Right", settings "position" == some "bottom-right", .setPosition "bottom-right"⟩ ],
    .sep,
    .radioGroup "Show in Menu Bar"
      [ ⟨"Always", settings "trayVisibility" == some "always", .setTrayVisibility "always"⟩,
        ⟨"When app is running", settings "trayVisibility" == some "running", .setTrayVisibility "running"⟩,
        ⟨"Never", settings "trayVisibility" == some "never", .setTrayVisibility "never"⟩ ],
    .sep,
    .action "Quit" .quitApp ]

/-- The entries of the "Companion Position" radio group of a menu. -/
def positionEntries (menu : List TrayItem) : List RadioEntry :=
  match menu.find? (fun i => match i with
    | .radioGroup "Companion Position" _ => true
    | _ => false) with
  | some (.radioGroup _ es) => es
  | _ => []

/-- The entries of the "Show in Menu Bar" radio group of a menu. -/
def trayVisEntries (menu : List TrayItem) : List RadioEntry :=
  match menu.find? (fun i => match i with
    | .radioGroup "Show in Menu Bar" _ => true
    | _ => false) with
  | some (.radioGroup _ es) => es
  | _ => []

/-- The position name a radio entry's click handler would persist. -/
def entryPosValue : RadioEntry → Option String
  | ⟨_, _, .setPosition v⟩ => some v
  | _ => none

/-- The position names offered by the "Companion Position" radio group. -/
def positionValues (menu : List TrayItem) : List String :=
  (positionEntries menu).filterMap entryPosValue

/-- The tray icon handle: liveness flag plus the context menu currently
captured by its `right-click` handler. -/
structure TrayState where
  destroyed : Bool
  menu : List TrayItem
deriving DecidableEq

/-! ## The coordinator state -/

/-- The module-level mutable state of `src/index.js`: the store and the
nullable `mainWindow` / `companionWindow` / `tray` references, plus the
primary display's work-area size (read-only environment). -/
structure AppState where
  store : Store
  mainWindow : Option BWin
  companionWindow : Option BWin
  tray : Option TrayState
  workAreaSize : ℤ × ℤ

/-- The settings as `createTray` reads them: `store.get('settings') || {…defaults}`. -/
def curSettings (s : AppState) : SettingsMap :=
  s.store.settings.getD defaultSettings

/-- `getWindowPosition` (src/index.js:407-448) for a companion window handle
`w`: reads the work area and the persisted settings (with the local
`{position: 'top-center'}` default), prefers the `overridePosition`
argument, and resolves.  An absent position name falls into the `switch`'s
`default` branch, exactly like JS `undefined`. -/
def getWindowPositionFor (s : AppState) (w : BWin) (override : Option String) : ℤ × ℤ :=
  let settings := s.store.settings.getD posDefaultSettings
  let position := (override <|> settings "position").getD ""
  resolvePosition position w.bounds s.workAreaSize

/-- `showWindow` (src/index.js:390-405) applied to the live companion handle
`w`: resolve the position, `setPosition`, `show`, `focus`.  The trailing
auto-focus script injection is fire-and-forget and outside the state. -/
def showWindowSt (s : AppState) (w : BWin) : AppState :=
  { s with companionWindow := some { w with
      position := getWindowPositionFor s w none,
      visible := true,
      focused := true } }

/-- `toggleWindow` (src/index.js:378-388).  The source dereferences
`companionWindow` unconditionally; a `null` reference or a destroyed native
window makes `companionWindow.isVisible()` throw, modelled as `.error`. -/
def toggleWindow (s : AppState) : Except String AppState :=
  match s.companionWindow with
  | none => .error "TypeError: Cannot read properties of null (reading isVisible)"
  | some w =>
    if w.destroyed then .error "TypeError: Object has been destroyed"
    else if w.visible then
      if w.focused then
        .ok { s with companionWindow := some { w with visible := false, focused := false } }
      else
        .ok { s with companionWindow := some { w with focused := true } }
    else
      .ok (showWindowSt s w)

/-- The global hotkey callback (src/index.js:475-480): guards with
`companionWindow && !companionWindow.isDestroyed()` before toggling. -/
def hotkeyHandler (s : AppState) : Except String AppState :=
  match s.companionWindow with
  | none => .ok s
  | some w => if w.destroyed then .ok s else toggleWindow s

/-- The tray `click` handler (src/index.js:353-356): calls `toggleWindow()`
directly, with no liveness check. -/
def trayClickHandler (s : AppState) : Except String AppState :=
  toggleWindow s

/-! ## Tray controller -/

/-- `createTray` (src/index.js:274-361).  Reads settings fresh (with the
defaults object).  If `trayVisibility` is `'never'`, destroys a live tray
(`tray.destroy(); tray = null`) and returns.  Otherwise builds the context
menu from the fresh settings, creates the tray icon only when the reference
is `null`, and re-attaches the handlers (so the menu the `right-click`
handler pops is the fresh one).  `tray.setContextMenu(null)` on a non-null
but destroyed tray handle would throw, modelled as `.error`. -/
def createTray (s : AppState) : Except String AppState :=
  let settings := curSettings s
  if settings "trayVisibility" == some "never" then
    match s.tray with
    | some t => if t.destroyed then .ok s else .ok { s with tray := none }
    | none => .ok s
  else
    let menu := contextMenuTemplate settings
    match s.tray with
    | some t =>
      if t.destroyed then .error "TypeError: Object has been destroyed"
      else .ok { s with tray := some { t with menu := menu } }
    | none => .ok { s with tray := some ⟨false, menu⟩ }

/-- `updateSetting` (src/index.js:363-376): read `store.get('settings') || {}`,
assign the key, persist, rebuild the tray, and — when the key is
`'position'` and the `companionWindow` reference is non-null (the source
tests only truthiness, not visibility) — immediately resolve and apply the
window position with the new value as override.  `getBounds`/`setPosition`
on a destroyed handle would throw, modelled as `.error`. -/
def updateSetting (key value : String) (s : AppState) : Except String AppState :=
  let settings := s.store.settings.getD (fun _ => none)
  let settings' := setKey settings key value
  let s₁ : AppState := { s with store := { s.store with settings := some settings' } }
  match createTray s₁ with
  | .error e => .error e
  | .ok s₂ =>
    if key = "position" then
      match s₂.companionWindow with
      | none => .ok s₂
      | some w =>
        if w.destroyed then .error "TypeError: Object has been destroyed"
        else
          .ok { s₂ with companionWindow := some { w with
            position := getWindowPositionFor s₂ w (some value) } }
    else .ok s₂

/-- The `BrowserWindow` produced by `createMainWindow` (src/index.js:105-147):
shown (Electron default), alive.  Electron's default width is 800 and the
source sets `height: 800`. -/
def newMainWin : BWin :=
  { destroyed := false, visible := true, focused := true,
    bounds := (800, 800), position := (0, 0) }

/-- The state effect of `createMainWindow(savedHost)`: replace the
`mainWindow` reference.  (Its menu/URL side effects live in the event-trace
model below.) -/
def createMainWindowSt (s : AppState) : AppState :=
  { s with mainWindow := some newMainWin }

/-- The "Open Soluma Chat" tray item's click handler (src/index.js:295-303):
if the main window reference is null or destroyed, create it when a host is
persisted; otherwise `show()` and `focus()` it. -/
def openMainClick (s : AppState) : AppState :=
  match s.mainWindow with
  | none =>
    (match s.store.serverHost with
     | some _ => createMainWindowSt s
     | none => s)
  | some m =>
    if m.destroyed then
      (match s.store.serverHost with
       | some _ => createMainWindowSt s
       | none => s)
    else
      { s with mainWindow := some { m with visible := true, focused := true } }

/-- Dispatch of a tray menu click to the handler the template wires it to.
The `Quit` item uses Electron's built-in `role: "quit"`; process exit is
outside the state, so it is the identity here. -/
def runTrayAction : TrayAction → AppState → Except String AppState
  | .openMainAction, s => .ok (openMainClick s)
  | .toggleCompanion, s => toggleWindow s
  | .setPosition v, s => updateSetting "position" v s
  | .setTrayVisibility v, s => updateSetting "trayVisibility" v s
  | .quitApp, s => .ok s

/-! ## Startup and login-submission orchestration (event traces)

The creation order claims are about which side effects run and in which
order, so we model `initialize`, the `whenReady` callback and the
`submit-server-host` IPC handler as the lists of externally visible events
they perform. -/

/-- Externally visible orchestration events. -/
inductive Ev
  | createCompanion (host : String)
  | createMain (host : String)
  | buildMenu (host : String)
  | createTrayEv
  | registerHotkey
  | persistHost (host : String)
  | showSecurityDialog
  | clearInputSignal
  | createLogin
deriving DecidableEq

/-- `createMainWindow(host)` (src/index.js:105-147) creates the main window
and then builds the application menu for it. -/
def createMainWindowTrace (host : String) : List Ev :=
  [.createMain host, .buildMenu host]

/-- `initialize()` (src/index.js:263-272): companion first, then main (with
its menu) when a host is persisted; otherwise the login window. -/
def initializeTrace (st : Store) : List Ev :=
  match st.serverHost with
  | some h => .createCompanion h :: createMainWindowTrace h
  | none => [.createLogin]

/-- The `app.whenReady` callback (src/index.js:450-490): `initialize()`,
then `createTray()`, then the global-hotkey registration. -/
def appReadyTrace (st : Store) : List Ev :=
  initializeTrace st ++ [.createTrayEv, .registerHotkey]

/-- JavaScript `String.prototype.startsWith`, evaluated over the character
list (`s` begins with `p`). -/
def strStartsWith (s p : String) : Bool :=
  decide (s.data.take p.data.length = p.data)

/-- The `submit-server-host` IPC handler (src/index.js:504-537).
`dialogResponse` is the security dialog's button index (0 = Continue,
anything else = Cancel); it is only consulted when the host starts with
`http://`.  Returns the store after the handler and the event trace. -/
def submitServerHost (host : String) (dialogResponse : ℕ) (st : Store) :
    Store × List Ev :=
  if strStartsWith host "http://" then
    if dialogResponse = 0 then
      ({ st with serverHost := some host },
        .showSecurityDialog :: .persistHost host ::
          (createMainWindowTrace host ++ [.createCompanion host]))
    else
      (st, [.showSecurityDialog, .clearInputSignal])
  else
    ({ st with serverHost := some host },
      .persistHost host :: (createMainWindowTrace host ++ [.createCompanion host]))

/-! ## Concrete fixtures used by witnesses and counterexamples -/

/-- A live, hidden companion window with the source's initial 400×600 bounds. -/
def wHidden : BWin := ⟨false, false, false, (400, 600), (0, 0)⟩

/-- A state with a hidden live companion on a 1920×1080 work area. -/
def sHidden : AppState :=
  { store := emptyStore, mainWindow := none, companionWindow := some wHidden,
    tray := none, workAreaSize := (1920, 1080) }

/-- The state after startup with no persisted host: login window only, no
companion, tray created. -/
def loginOnlyState : AppState :=
  { store := emptyStore, mainWindow := none, companionWindow := none,
    tray := some ⟨false, contextMenuTemplate defaultSettings⟩,
    workAreaSize := (1920, 1080) }

/-- A companion handle whose native window was destroyed out-of-band. -/
def wDead : BWin := ⟨true, false, false, (400, 600), (0, 0)⟩

/-- A state holding a destroyed companion handle. -/
def sDead : AppState :=
  { store := emptyStore, mainWindow := none, companionWindow := some wDead,
    tray := some ⟨false, contextMenuTemplate defaultSettings⟩,
    workAreaSize := (1920, 1080) }

/-- Settings with `trayVisibility` switched to `'never'`. -/
def neverSettings : SettingsMap := setKey defaultSettings "trayVisibility" "never"

/-- A state with a live tray but `trayVisibility: 'never'` persisted. -/
def sTrayNever : AppState :=
  { store := ⟨none, none, some neverSettings⟩, mainWindow := none,
    companionWindow := none, tray := some ⟨false, []⟩,
    workAreaSize := (1920, 1080) }

/-! ## Claims -/

/-- C1: `toggle()` on a live companion window hides it when it is visible
and focused, focuses it without hiding when it is visible but unfocused,
and shows it (repositioned, visible, focused) when it is hidden; two
toggles from `Hidden` with no intervening change perform a show and then a
hide, ending with the companion hidden again. -/
theorem toggle_state_machine (s : AppState) (w : BWin)
    (hw : s.companionWindow = some w) (hd : w.destroyed = false) :
    (w.visible = true → w.focused = true →
      toggleWindow s =
        .ok { s with companionWindow := some { w with visible := false, focused := false } }) ∧
    (w.visible = true → w.focused = false →
      toggleWindow s = .ok { s with companionWindow := some { w with focused := true } }) ∧
    (w.visible = false →
      toggleWindow s = .ok (showWindowSt s w) ∧
      (showWindowSt s w).companionWindow = some { w with
        position := getWindowPositionFor s w none, visible := true, focused := true } ∧
      toggleWindow (showWindowSt s w) =
        .ok { s with companionWindow := some { w with
          position := getWindowPositionFor s w none, visible := false, focused := false } }) := by
  refine ⟨?_, ?_, ?_⟩
  · intro hv hf
    simp [toggleWindow, hw, hd, hv, hf]
  · intro hv hf
    simp [toggleWindow, hw, hd, hv, hf]
  · intro hv
    refine ⟨?_, ?_, ?_⟩
    · simp [toggleWindow, hw, hd, hv]
    · simp [showWindowSt]
    · simp [toggleWindow, showWindowSt, hd]

/-- Witness for C1 at a concrete hidden-state fixture: the show/hide round
trip of the double toggle. -/
theorem toggle_state_machine_witness :
    toggleWindow sHidden = .ok (showWindowSt sHidden wHidden) ∧
    (showWindowSt sHidden wHidden).companionWindow = some { wHidden with
      position := getWindowPositionFor sHidden wHidden none,
      visible := true, focused := true } ∧
    toggleWindow (showWindowSt sHidden wHidden) =
      .ok { sHidden with companionWindow := some { wHidden with
        position := getWindowPositionFor sHidden wHidden none,
        visible := false, focused := false } } :=
  (toggle_state_machine sHidden wHidden rfl rfl).2.2 rfl

/-- C2: the claim says every toggle trigger checks liveness first; the code
only does so on the hotkey path.  At a state with no companion window
(login-only startup) the tray left-click dereferences the null handle and
throws, while the hotkey callback is a guarded no-op; likewise for a
companion destroyed out-of-band. -/
theorem tray_click_missing_liveness_check :
    loginOnlyState.companionWindow = none ∧
    trayClickHandler loginOnlyState =
      .error "TypeError: Cannot read properties of null (reading isVisible)" ∧
    hotkeyHandler loginOnlyState = .ok loginOnlyState ∧
    (sDead.companionWindow.map BWin.destroyed) = some true ∧
    trayClickHandler sDead = .error "TypeError: Object has been destroyed" ∧
    hotkeyHandler sDead = .ok sDead :=
  ⟨rfl, rfl, rfl, rfl, rfl, rfl⟩

/-- C3: the position resolver computes exactly the spec's formulas for the
six named positions (`specResolve` is transcribed from the spec's words),
any unrecognized name resolves like `top-center`, and the spec's example
`bottom-right`, 400×600 window, 1920×1080 work area resolves to
(1500, 460). -/
theorem resolver_matches_spec :
    (∀ p wb wa, resolvePosition p wb wa = specResolve p wb wa) ∧
    (∀ p wb wa, p ≠ "bottom-center" → p ≠ "bottom-left" → p ≠ "bottom-right" →
      p ≠ "center" → p ≠ "top-right" →
      resolvePosition p wb wa = resolvePosition "top-center" wb wa) ∧
    resolvePosition "bottom-right" (400, 600) (1920, 1080) = (1500, 460) := by
  refine ⟨?_, ?_, by decide⟩
  · intro p wb wa
    unfold resolvePosition specResolve
    split_ifs <;> simp [jsRoundDiv_one]
  · intro p wb wa h1 h2 h3 h4 h5
    simp [resolvePosition, if_neg h1, if_neg h2, if_neg h3, if_neg h4, if_neg h5]

/-- Witness for C3's fallback clause at a concrete unrecognized name. -/
theorem resolver_fallback_witness :
    resolvePosition "weird" (400, 600) (1920, 1080) =
      resolvePosition "top-center" (400, 600) (1920, 1080) :=
  resolver_matches_spec.2.1 "weird" (400, 600) (1920, 1080)
    (by decide) (by decide) (by decide) (by decide) (by decide)

/-- C4 is false as stated: for positive but large window dimensions the
output leaves the claimed range — a 100×100 window on a 100×100 work area
resolves `bottom-right` to (−20, −20). -/
theorem position_bounds_counterexample :
    (0 : ℤ) < 100 ∧
    resolvePosition "bottom-right" (100, 100) (100, 100) = (-20, -20) ∧
    ¬ inRange (resolvePosition "bottom-right" (100, 100) (100, 100))
        (100, 100) (100, 100) := by decide

/-- C4 (amended): the bottom/right/center variants stay within
`[0, screenWidth−windowWidth] × [0, screenHeight−windowHeight]` provided
the window fits the work area with the 20-pixel margin in both dimensions,
and, for `top-right`'s y-coordinate, the rounded 10%-of-screen offset
leaves room for the window height. -/
theorem position_bounds_amended (sw sh ww wh : ℤ)
    (_hpw : 0 < ww) (_hph : 0 < wh)
    (hx : ww + 20 ≤ sw) (hy : wh + 20 ≤ sh) :
    inRange (resolvePosition "bottom-center" (ww, wh) (sw, sh)) (ww, wh) (sw, sh) ∧
    inRange (resolvePosition "bottom-left" (ww, wh) (sw, sh)) (ww, wh) (sw, sh) ∧
    inRange (resolvePosition "bottom-right" (ww, wh) (sw, sh)) (ww, wh) (sw, sh) ∧
    inRange (resolvePosition "center" (ww, wh) (sw, sh)) (ww, wh) (sw, sh) ∧
    (jsRoundDiv sh 10 + wh ≤ sh →
      inRange (resolvePosition "top-right" (ww, wh) (sw, sh)) (ww, wh) (sw, sh)) := by
  refine ⟨?_, ?_, ?_, ?_, ?_⟩
  · rw [show resolvePosition "bottom-center" (ww, wh) (sw, sh) =
        (jsRoundDiv (sw - ww) 2, jsRoundDiv (sh - wh - 20) 1) from rfl]
    unfold inRange jsRoundDiv
    dsimp only
    omega
  · rw [show resolvePosition "bottom-left" (ww, wh) (sw, sh) =
        (20, jsRoundDiv (sh - wh - 20) 1) from rfl]
    unfold inRange jsRoundDiv
    dsimp only
    omega
  · rw [show resolvePosition "bottom-right" (ww, wh) (sw, sh) =
        (jsRoundDiv (sw - ww - 20) 1, jsRoundDiv (sh - wh - 20) 1) from rfl]
    unfold inRange jsRoundDiv
    dsimp only
    omega
  · rw [show resolvePosition "center" (ww, wh) (sw, sh) =
        (jsRoundDiv (sw - ww) 2, jsRoundDiv (sh - wh) 2) from rfl]
    unfold inRange jsRoundDiv
    dsimp only
    omega
  · intro htr
    unfold jsRoundDiv at htr
    rw [show resolvePosition "top-right" (ww, wh) (sw, sh) =
        (jsRoundDiv (sw - ww - 20) 1, jsRoundDiv sh 10) from rfl]
    unfold inRange jsRoundDiv
    dsimp only
    omega

/-- Witness for C4 (amended) at the spec's example geometry. -/
theorem position_bounds_amended_witness :
    inRange (resolvePosition "bottom-center" (400, 600) (1920, 1080)) (400, 600) (1920, 1080) ∧
    inRange (resolvePosition "bottom-left" (400, 600) (1920, 1080)) (400, 600) (1920, 1080) ∧
    inRange (resolvePosition "bottom-right" (400, 600) (1920, 1080)) (400, 600) (1920, 1080) ∧
    inRange (resolvePosition "center" (400, 600) (1920, 1080)) (400, 600) (1920, 1080) ∧
    inRange (resolvePosition "top-right" (400, 600) (1920, 1080)) (400, 600) (1920, 1080) :=
  have h := position_bounds_amended 1920 1080 400 600
    (by decide) (by decide) (by decide) (by decide)
  ⟨h.1, h.2.1, h.2.2.1, h.2.2.2.1, h.2.2.2.2 (by decide)⟩

/-- The `BrowserWindow` produced by `createCompanionWindow`
(src/index.js:149-169): 400×600, `show: false`, alive. -/
def newCompanionWin : BWin :=
  { destroyed := false, visible := false, focused := false,
    bounds := (400, 600), position := (0, 0) }

/-- C5 is false as stated for the login half: at a concrete secure host the
submission handler's trace creates the Main window (index 1) before the
Companion window (index 3) — the reverse of the startup order. -/
theorem login_creation_order_counterexample :
    (submitServerHost "chat.example.com" 0 emptyStore).2 =
      [.persistHost "chat.example.com", .createMain "chat.example.com",
       .buildMenu "chat.example.com", .createCompanion "chat.example.com"] ∧
    (submitServerHost "chat.example.com" 0 emptyStore).2.indexOf
        (.createMain "chat.example.com") = 1 ∧
    (submitServerHost "chat.example.com" 0 emptyStore).2.indexOf
        (.createCompanion "chat.example.com") = 3 := by decide

/-- C5 (amended): at startup with a persisted host the orchestrator creates
the Companion window, then the Main window, then builds the main menu, then
ensures the tray, then registers the global hotkey; a successful login
submission instead creates the Main window (and its menu) first and the
Companion window last. -/
theorem startup_and_login_creation_order (st : Store) (h : String)
    (hh : st.serverHost = some h) :
    appReadyTrace st =
      [.createCompanion h, .createMain h, .buildMenu h,
       .createTrayEv, .registerHotkey] ∧
    (∀ host (st' : Store), strStartsWith host "http://" = false →
      (submitServerHost host 0 st').2 =
        [.persistHost host, .createMain host, .buildMenu host,
         .createCompanion host]) ∧
    (∀ host (st' : Store), strStartsWith host "http://" = true →
      (submitServerHost host 0 st').2 =
        [.showSecurityDialog, .persistHost host, .createMain host,
         .buildMenu host, .createCompanion host]) ∧
    newCompanionWin.visible = false ∧ newMainWin.visible = true := by
  refine ⟨?_, ?_, ?_, rfl, rfl⟩
  · simp [appReadyTrace, initializeTrace, createMainWindowTrace, hh]
  · intro host st' hsec
    simp [submitServerHost, hsec, createMainWindowTrace]
  · intro host st' hsec
    simp [submitServerHost, hsec, createMainWindowTrace]

/-- Witness for C5 (amended) at a concrete persisted host. -/
theorem startup_creation_order_witness :
    appReadyTrace ⟨some "chat.example.com", none, none⟩ =
      [.createCompanion "chat.example.com", .createMain "chat.example.com",
       .buildMenu "chat.example.com", .createTrayEv, .registerHotkey] :=
  (startup_and_login_creation_order ⟨some "chat.example.com", none, none⟩
    "chat.example.com" rfl).1

/-- C6: submitting a host beginning with `http://` raises the security
dialog; on Cancel the store is left untouched and the clear-input signal is
sent back; on Continue (or when the host does not begin with `http://`) the
host is persisted and both the Main and Companion windows are created. -/
theorem insecure_host_flow (host : String) (st : Store) (resp : ℕ) :
    (strStartsWith host "http://" = true →
      (resp ≠ 0 →
        (submitServerHost host resp st).1 = st ∧
        (submitServerHost host resp st).2 =
          [.showSecurityDialog, .clearInputSignal]) ∧
      ((submitServerHost host 0 st).1.serverHost = some host ∧
        Ev.showSecurityDialog ∈ (submitServerHost host 0 st).2 ∧
        Ev.createMain host ∈ (submitServerHost host 0 st).2 ∧
        Ev.createCompanion host ∈ (submitServerHost host 0 st).2)) ∧
    (strStartsWith host "http://" = false →
      (submitServerHost host resp st).1.serverHost = some host ∧
      Ev.showSecurityDialog ∉ (submitServerHost host resp st).2 ∧
      Ev.createMain host ∈ (submitServerHost host resp st).2 ∧
      Ev.createCompanion host ∈ (submitServerHost host resp st).2) := by
  constructor
  · intro hsec
    constructor
    · intro hresp
      simp [submitServerHost, hsec, hresp]
    · simp [submitServerHost, hsec, createMainWindowTrace]
  · intro hsec
    simp [submitServerHost, hsec, createMainWindowTrace]

/-- Witness for C6 at a concrete insecure host, exercising the Cancel path. -/
theorem insecure_host_flow_witness :
    (submitServerHost "http://chat.local" 1 emptyStore).1 = emptyStore ∧
    (submitServerHost "http://chat.local" 1 emptyStore).2 =
      [.showSecurityDialog, .clearInputSignal] :=
  ((insecure_host_flow "http://chat.local" emptyStore 1).1 (by decide)).1 (by decide)

/-- `createTray` touches only the `tray` reference: store and windows are
untouched on every successful path. -/
theorem createTray_frame (s s' : AppState) (h : createTray s = .ok s') :
    s'.store = s.store ∧ s'.mainWindow = s.mainWindow ∧
    s'.companionWindow = s.companionWindow ∧ s'.workAreaSize = s.workAreaSize := by
  unfold createTray at h
  dsimp only at h
  repeat' split at h
  all_goals cases h
  all_goals exact ⟨rfl, rfl, rfl, rfl⟩

/-- On every successful path, `updateSetting key value` leaves the store
with exactly the one-key update of the settings object persisted. -/
theorem updateSetting_store (key value : String) (s s' : AppState)
    (h : updateSetting key value s = .ok s') :
    s'.store =
      { s.store with
        settings := some (setKey (s.store.settings.getD (fun _ => none)) key value) } := by
  unfold updateSetting at h
  dsimp only at h
  split at h
  · cases h
  · rename_i s₂ hct
    have hfr := createTray_frame _ _ hct
    split at h
    · split at h
      · cases h
        exact hfr.1
      · split at h
        · cases h
        · cases h
          exact hfr.1
    · cases h
      exact hfr.1

/-- When `trayVisibility` is not `'never'` and no tray exists, `createTray`
creates a live tray whose menu is built from the freshly read settings. -/
theorem createTray_creates (s : AppState) (ht : s.tray = none)
    (hv : (curSettings s) "trayVisibility" ≠ some "never") :
    createTray s = .ok { s with tray := some ⟨false, contextMenuTemplate (curSettings s)⟩ } := by
  have hb : ((curSettings s) "trayVisibility" == some "never") = false := by
    simp [hv]
  simp [createTray, hb, ht]

/-- When `trayVisibility` is not `'never'` and a live tray exists,
`createTray` keeps the icon and swaps in the freshly built menu. -/
theorem createTray_updates (s : AppState) (t : TrayState) (ht : s.tray = some t)
    (hd : t.destroyed = false)
    (hv : (curSettings s) "trayVisibility" ≠ some "never") :
    createTray s =
      .ok { s with tray := some { t with menu := contextMenuTemplate (curSettings s) } } := by
  have hb : ((curSettings s) "trayVisibility" == some "never") = false := by
    simp [hv]
  simp [createTray, hb, ht, hd]

/-- On every successful non-`'never'` run, the resulting tray exists and its
menu reflects the settings read at the moment of the rebuild. -/
theorem createTray_menu (s s' : AppState) (h : createTray s = .ok s')
    (hv : (curSettings s) "trayVisibility" ≠ some "never") :
    ∃ t : TrayState, s'.tray = some t ∧ t.menu = contextMenuTemplate (curSettings s) := by
  rcases ht : s.tray with _ | t
  · rw [createTray_creates s ht hv] at h
    cases h
    exact ⟨_, rfl, rfl⟩
  · rcases hd : t.destroyed with _ | _
    · rw [createTray_updates s t ht hd hv] at h
      cases h
      exact ⟨_, rfl, rfl⟩
    · have hb : ((curSettings s) "trayVisibility" == some "never") = false := by
        simp [hv]
      simp [createTray, hb, ht, hd] at h

/-- C7: `createTray` (the tray `ensure` operation): with `trayVisibility`
`'never'` it destroys any live tray icon and does nothing else; with
`'always'` or `'running'` it creates the icon when absent, keeps an
existing one, and in either case rebuilds the context menu from the freshly
read settings; and setting `trayVisibility` back to `'always'` through
`updateSetting` recreates the tray with its menu built from the updated
settings. -/
theorem tray_ensure_spec (s : AppState) :
    ((curSettings s) "trayVisibility" = some "never" →
      (∀ t, s.tray = some t → t.destroyed = false →
        createTray s = .ok { s with tray := none }) ∧
      (s.tray = none → createTray s = .ok s)) ∧
    ((curSettings s) "trayVisibility" = some "always" ∨
        (curSettings s) "trayVisibility" = some "running" →
      (s.tray = none →
        createTray s =
          .ok { s with tray := some ⟨false, contextMenuTemplate (curSettings s)⟩ }) ∧
      (∀ t, s.tray = some t → t.destroyed = false →
        createTray s =
          .ok { s with tray := some { t with menu := contextMenuTemplate (curSettings s) } })) ∧
    (s.tray = none → ∀ s', updateSetting "trayVisibility" "always" s = .ok s' →
      s'.tray = some ⟨false, contextMenuTemplate
        (setKey (s.store.settings.getD (fun _ => none)) "trayVisibility" "always")⟩) := by
  refine ⟨?_, ?_, ?_⟩
  · intro hnv
    constructor
    · intro t ht hd
      simp [createTray, hnv, ht, hd]
    · intro ht
      simp [createTray, hnv, ht]
  · intro hv
    have hne : (curSettings s) "trayVisibility" ≠ some "never" := by
      rcases hv with h | h <;> simp [h]
    exact ⟨fun ht => createTray_creates s ht hne,
      fun t ht hd => createTray_updates s t ht hd hne⟩
  · intro ht s' h
    have hct := createTray_creates
      { s with store :=
          { s.store with
            settings := some (setKey (s.store.settings.getD (fun _ => none))
              "trayVisibility" "always") } }
      ht (by simp [curSettings, setKey])
    unfold updateSetting at h
    dsimp only at h
    rw [hct] at h
    simp at h
    rw [← h]
    rfl

/-- Witness for C7: the `'never'` setting destroys a live tray, and at a
state with default settings (`trayVisibility: 'always'`) and no tray yet
the icon is created with the menu built from those settings. -/
theorem tray_ensure_spec_witness :
    createTray sTrayNever = .ok { sTrayNever with tray := none } ∧
    createTray sHidden =
      .ok { sHidden with tray := some ⟨false, contextMenuTemplate (curSettings sHidden)⟩ } :=
  ⟨((tray_ensure_spec sTrayNever).1 rfl).1 ⟨false, []⟩ rfl rfl,
    ((tray_ensure_spec sHidden).2.1 (Or.inl rfl)).1 rfl⟩

/-- When `trayVisibility` reads `'never'`, `createTray` destroys a live
tray icon and does nothing else. -/
theorem createTray_destroys (s : AppState) (t : TrayState) (ht : s.tray = some t)
    (hd : t.destroyed = false)
    (hv : (curSettings s) "trayVisibility" = some "never") :
    createTray s = .ok { s with tray := none } := by
  simp [createTray, hv, ht, hd]

/-- A live, visible, focused main window handle. -/
def mLive : BWin := ⟨false, true, true, (800, 800), (0, 0)⟩

/-- A state with a persisted host and a live main window. -/
def sMain : AppState :=
  { store := ⟨some "chat.example.com", none, none⟩, mainWindow := some mLive,
    companionWindow := none, tray := none, workAreaSize := (1920, 1080) }

/-- C8 is false as stated: the companion-position radio group offers three
position names, not all six — `top-center` (among others) is absent. -/
theorem tray_menu_counterexample :
    positionValues (contextMenuTemplate defaultSettings) =
      ["bottom-center", "bottom-left", "bottom-right"] ∧
    (positionValues (contextMenuTemplate defaultSettings)).length = 3 ∧
    "top-center" ∉ positionValues (contextMenuTemplate defaultSettings) := by decide

/-- C8 (amended): the tray context menu offers an open-main-window item
(creating the Main window if absent, else showing and focusing it — the
source treats a null and a destroyed reference alike as absent, and
creates against the persisted host, hence the host hypothesis below), an
open-companion item invoking `toggle()`, a companion-position radio group
over the three bottom position names whose selection runs
`updateSetting('position', …)`, a menu-bar-visibility radio group over
always/running/never where selecting `'never'` immediately destroys a live
tray, and a quit item; the radio checked-state mirrors the settings the
menu was built from. -/
theorem tray_menu_amended (settings : SettingsMap) :
    TrayItem.action "Open Soluma Chat" .openMainAction ∈ contextMenuTemplate settings ∧
    TrayItem.action "Open Companion" .toggleCompanion ∈ contextMenuTemplate settings ∧
    TrayItem.action "Quit" .quitApp ∈ contextMenuTemplate settings ∧
    positionEntries (contextMenuTemplate settings) =
      [⟨"Bottom Center", settings "position" == some "bottom-center", .setPosition "bottom-center"⟩,
       ⟨"Bottom Left", settings "position" == some "bottom-left", .setPosition "bottom-left"⟩,
       ⟨"Bottom Right", settings "position" == some "bottom-right", .setPosition "bottom-right"⟩] ∧
    trayVisEntries (contextMenuTemplate settings) =
      [⟨"Always", settings "trayVisibility" == some "always", .setTrayVisibility "always"⟩,
       ⟨"When app is running", settings "trayVisibility" == some "running", .setTrayVisibility "running"⟩,
       ⟨"Never", settings "trayVisibility" == some "never", .setTrayVisibility "never"⟩] ∧
    (∀ v (s : AppState), runTrayAction (.setPosition v) s = updateSetting "position" v s) ∧
    (∀ s : AppState, runTrayAction .toggleCompanion s = toggleWindow s) ∧
    (∀ (s : AppState) t, s.tray = some t → t.destroyed = false →
      ∀ s', runTrayAction (.setTrayVisibility "never") s = .ok s' → s'.tray = none) ∧
    (∀ (s : AppState) m, s.mainWindow = some m → m.destroyed = false →
      runTrayAction .openMainAction s =
        .ok { s with mainWindow := some { m with visible := true, focused := true } }) ∧
    (∀ (s : AppState) h, s.mainWindow = none → s.store.serverHost = some h →
      runTrayAction .openMainAction s = .ok (createMainWindowSt s)) ∧
    (∀ (s : AppState) m h, s.mainWindow = some m → m.destroyed = true →
      s.store.serverHost = some h →
      runTrayAction .openMainAction s = .ok (createMainWindowSt s)) := by
  refine ⟨?_, ?_, ?_, rfl, rfl, fun v s => rfl, fun s => rfl, ?_, ?_, ?_, ?_⟩
  · simp [contextMenuTemplate]
  · simp [contextMenuTemplate]
  · simp [contextMenuTemplate]
  · intro s t ht hd s' h
    have hct := createTray_destroys
      { s with store :=
          { s.store with
            settings := some (setKey (s.store.settings.getD (fun _ => none))
              "trayVisibility" "never") } }
      t ht hd (by simp [curSettings, setKey])
    unfold runTrayAction updateSetting at h
    dsimp only at h
    rw [hct] at h
    simp at h
    rw [← h]
  · intro s m hm hd
    simp [runTrayAction, openMainClick, hm, hd]
  · intro s h hm hh
    simp [runTrayAction, openMainClick, hm, hh]
  · intro s m h hm hd hh
    simp [runTrayAction, openMainClick, hm, hd, hh]

/-- A main window handle whose native window was destroyed out-of-band. -/
def mDead : BWin := ⟨true, false, false, (800, 800), (0, 0)⟩

/-- A state with a persisted host and a destroyed main window handle. -/
def sMainDead : AppState :=
  { store := ⟨some "chat.example.com", none, none⟩, mainWindow := some mDead,
    companionWindow := none, tray := none, workAreaSize := (1920, 1080) }

/-- Witness for C8 (amended): the open-main item shows and focuses a live
main window, and recreates the Main window when the handle is destroyed
and a host is persisted. -/
theorem tray_menu_amended_witness :
    (runTrayAction .openMainAction sMain =
      .ok { sMain with mainWindow := some { mLive with visible := true, focused := true } }) ∧
    runTrayAction .openMainAction sMainDead = .ok (createMainWindowSt sMainDead) :=
  ⟨(tray_menu_amended defaultSettings).2.2.2.2.2.2.2.2.1 sMain mLive rfl rfl,
    (tray_menu_amended defaultSettings).2.2.2.2.2.2.2.2.2.2 sMainDead mDead
      "chat.example.com" rfl rfl rfl⟩

/-- The companion window's position after an `updateSetting` run, when the
run succeeded and a companion exists. -/
def companionPosFromResult (r : Except String AppState) : Option (ℤ × ℤ) :=
  match r with
  | .ok s => s.companionWindow.map BWin.position
  | .error _ => none

/-- C9 is false as stated: with the companion window created but hidden
(`visible = false`), `updateSetting('position', 'bottom-left')` still
repositions it immediately (from (0,0) to the resolved (20, 460)) — the
source only tests the reference for truthiness, not visibility. -/
theorem reposition_when_hidden_counterexample :
    wHidden.visible = false ∧
    wHidden.position = (0, 0) ∧
    companionPosFromResult (updateSetting "position" "bottom-left" sHidden) =
      some (20, 460) :=
  ⟨rfl, rfl, rfl⟩

/-- C9 (amended): `updateSetting(key, value)` persists the one-key change
and rebuilds the tray menu from the updated settings; the immediate
reposition fires exactly when the key is `'position'` and the
`companionWindow` reference is non-null — visible or hidden alike; when the
reference is null nothing is repositioned and the new value only takes
effect through the next `show()`'s fresh resolution. -/
theorem update_setting_reposition (key value : String) (s s' : AppState)
    (h : updateSetting key value s = .ok s') :
    s'.store =
      { s.store with
        settings := some (setKey (s.store.settings.getD (fun _ => none)) key value) } ∧
    ((setKey (s.store.settings.getD (fun _ => none)) key value) "trayVisibility"
        ≠ some "never" →
      ∃ t : TrayState, s'.tray = some t ∧
        t.menu = contextMenuTemplate
          (setKey (s.store.settings.getD (fun _ => none)) key value)) ∧
    (key ≠ "position" → s'.companionWindow = s.companionWindow) ∧
    (s.companionWindow = none → s'.companionWindow = none) ∧
    (∀ w, key = "position" → s.companionWindow = some w → w.destroyed = false →
      s'.companionWindow = some { w with
        position := resolvePosition value w.bounds s.workAreaSize }) := by
  refine ⟨updateSetting_store key value s s' h, ?_⟩
  unfold updateSetting at h
  dsimp only at h
  split at h
  · cases h
  · rename_i s₂ hct
    obtain ⟨hfrs, hfrm, hfrc, hfrw⟩ := createTray_frame _ _ hct
    have htray : ∀ hnv : (setKey (s.store.settings.getD (fun _ => none)) key value)
        "trayVisibility" ≠ some "never",
        ∃ t : TrayState, s₂.tray = some t ∧
          t.menu = contextMenuTemplate
            (setKey (s.store.settings.getD (fun _ => none)) key value) :=
      fun hnv => createTray_menu _ _ hct hnv
    by_cases hk : key = "position"
    · rw [if_pos hk] at h
      rcases hcw : s₂.companionWindow with _ | w
      · rw [hcw] at h
        simp only [] at h
        cases h
        refine ⟨htray, fun hne => absurd hk hne, fun _ => hcw, ?_⟩
        intro w hkp hsw hwd
        rw [hfrc, hsw] at hcw
        cases hcw
      · rw [hcw] at h
        rcases hd2 : w.destroyed with _ | _
        · simp only [hd2, Bool.false_eq_true, if_false] at h
          cases h
          refine ⟨?_, fun hne => absurd hk hne, ?_, ?_⟩
          · exact htray
          · intro hnone
            rw [hfrc, hnone] at hcw
            cases hcw
          · intro w' hkp hsw hwd
            rw [hfrc, hsw] at hcw
            cases hcw
            have hpos : getWindowPositionFor s₂ w (some value) =
                resolvePosition value w.bounds s.workAreaSize := by
              show resolvePosition value w.bounds s₂.workAreaSize = _
              rw [hfrw]
            dsimp only
            rw [hpos, hd2]
        · simp only [hd2, if_true] at h
          exact Except.noConfusion h
    · rw [if_neg hk] at h
      cases h
      refine ⟨htray, fun _ => hfrc, fun hnone => by rw [hfrc, hnone], ?_⟩
      intro w hkp _ _
      exact absurd hkp hk

/-- The state `updateSetting "position" "bottom-left"` produces from
`sHidden`: settings persisted, tray created, hidden companion repositioned. -/
def sAfterPos : AppState :=
  { store := ⟨none, none, some (setKey (fun _ => none) "position" "bottom-left")⟩,
    mainWindow := none,
    companionWindow := some { wHidden with position := (20, 460) },
    tray := some ⟨false, contextMenuTemplate (setKey (fun _ => none) "position" "bottom-left")⟩,
    workAreaSize := (1920, 1080) }

/-- Witness for C9 (amended): the hidden companion of `sHidden` is
repositioned immediately by the setting change. -/
theorem update_setting_reposition_witness :
    sAfterPos.companionWindow = some { wHidden with
      position := resolvePosition "bottom-left" wHidden.bounds sHidden.workAreaSize } :=
  (update_setting_reposition "position" "bottom-left" sHidden sAfterPos rfl).2.2.2.2
    wHidden rfl rfl rfl

/-- C10: `updateSetting(key, value)` changes only the field `key` of the
persisted settings record; every other settings field and the separately
persisted `serverHost` and `computerId` keys keep their prior values. -/
theorem update_setting_frame (key value : String) (s s' : AppState)
    (h : updateSetting key value s = .ok s') :
    (∀ k, k ≠ key →
      (s'.store.settings.getD (fun _ => none)) k =
        (s.store.settings.getD (fun _ => none)) k) ∧
    s'.store.serverHost = s.store.serverHost ∧
    s'.store.computerId = s.store.computerId := by
  have hst := updateSetting_store key value s s' h
  refine ⟨?_, ?_, ?_⟩
  · intro k hk
    rw [hst]
    simp [setKey, hk]
  · rw [hst]
  · rw [hst]

/-- Witness for C10: the `position` update from `sHidden` leaves the
`trayVisibility` field and the `serverHost` key untouched. -/
theorem update_setting_frame_witness :
    (sAfterPos.store.settings.getD (fun _ => none)) "trayVisibility" =
      (sHidden.store.settings.getD (fun _ => none)) "trayVisibility" ∧
    sAfterPos.store.serverHost = sHidden.store.serverHost :=
  ⟨(update_setting_frame "position" "bottom-left" sHidden sAfterPos rfl).1
      "trayVisibility" (by decide),
    (update_setting_frame "position" "bottom-left" sHidden sAfterPos rfl).2.1⟩

end SolumaChat
